import Mathlib

/-!
A shallow embedding of the query-generation, burst-scheduling and
answer-correlation engine of `src/dnstester.cpp` (dns64perf++ multithread),
together with theorems settling the behavioural claims about it.

Machine integers are modelled as `Nat`/`Int`; timestamps are abstract
naturals supplied by an oracle `τ : Nat → Nat` giving the send time of the
i-th transmitted query; fallible operations return `Except`.
-/

namespace DnsTester

/-- A per-query record (`DnsQuery`).  `DnsQuery::DnsQuery` (dnstester.cpp
lines 40-43) sets `received_` and `answered_` to `false`.
Modelled from the spec: the field declarations live in `dnstester.h`, which
is not among the sources; following the spec ("`rtt` (duration, valid iff
`received`)", "RTT (nanoseconds, `0` if not received)") `time_sent` and
`rtt` start out zero. -/
structure DnsQuery where
  time_sent : Nat
  received : Bool
  answered : Bool
  rtt : Int
  deriving DecidableEq

/-- The all-clear record produced by the `DnsQuery` constructor. -/
def DnsQuery.initial : DnsQuery := ⟨0, false, false, 0⟩

/-- The constructor parameters of `DnsTester` that the claims depend on
(dnstester.cpp lines 45-51): base IPv4 address `ip_`, `netmask_`,
`num_req_`, `num_burst_`. -/
structure Config where
  ip : Nat
  netmask : Nat
  num_req : Nat
  num_burst : Nat
  deriving DecidableEq

/-- The host-ID mask `(1 << (32 - netmask)) - 1` used at dnstester.cpp
lines 205 and 209. -/
def hostMask (netmask : Nat) : Nat := 2 ^ (32 - netmask) - 1

/-- The synthetic address of query `i`: `uint32_t ip = ip_ | num_sent_`
(dnstester.cpp line 141, and line 292 in `DnsTester::write`). -/
def encodeAddr (cfg : Config) (i : Nat) : Nat := cfg.ip ||| i

/-- The four dotted-quad octets of a question's first label. -/
structure Octets where
  b0 : Nat
  b1 : Nat
  b2 : Nat
  b3 : Nat
  deriving DecidableEq

/-- Splitting an address into octets for the label, as in
`(ip >> 24) & 0xff, (ip >> 16) & 0xff, (ip >> 8) & 0xff, ip & 0xff`
(dnstester.cpp line 142). -/
def toOctets (ip : Nat) : Octets :=
  ⟨(ip >>> 24) &&& 255, (ip >>> 16) &&& 255, (ip >>> 8) &&& 255, ip &&& 255⟩

/-- Reassembling the 32-bit address from the parsed octets:
`ip = (temp[0] << 24) | (temp[1] << 16) | (temp[2] << 8) | temp[3]`
(dnstester.cpp line 204). -/
def reconstructIp (o : Octets) : Nat :=
  (o.b0 <<< 24) ||| (o.b1 <<< 16) ||| (o.b2 <<< 8) ||| o.b3

/-- Decoding an address back to a record index:
`ip & ((1 << (32 - netmask_)) - 1)` (dnstester.cpp lines 205 and 209). -/
def decodeIdx (cfg : Config) (ip : Nat) : Nat := ip &&& hostMask cfg.netmask

/-- In-place update of the record at a given index, the counterpart of
writing through `tests_[idx]`. -/
def updateRecord (f : DnsQuery → DnsQuery) : Nat → List DnsQuery → List DnsQuery
  | _, [] => []
  | 0, q :: qs => f q :: qs
  | n + 1, q :: qs => q :: updateRecord f n qs

/-- Record lookup, the counterpart of reading `tests_[i]`. -/
def getQ (l : List DnsQuery) (i : Nat) : DnsQuery := l.getD i DnsQuery.initial

/-- The state shared by the burst scheduler and the receive loop: the
`num_sent_` counter and the `tests_` record array. -/
structure TestState where
  num_sent : Nat
  tests : List DnsQuery
  deriving DecidableEq

/-- The state after the `DnsTester` constructor: `num_sent_ = 0` and
`num_req_` freshly constructed records (dnstester.cpp lines 51, 85-89). -/
def initState (cfg : Config) : TestState :=
  ⟨0, List.replicate cfg.num_req DnsQuery.initial⟩

/-- One iteration of the loop body of `DnsTester::test` (dnstester.cpp
lines 135-154): the query at index `num_sent_` is rewritten to address
`ip_ | num_sent_`, transmitted, stamped with its send time, and
`num_sent_` is incremented. -/
def sendStep (τ : Nat → Nat) (st : TestState) : TestState :=
  ⟨st.num_sent + 1,
   updateRecord (fun q => { q with time_sent := τ st.num_sent }) st.num_sent st.tests⟩

/-- `n` consecutive iterations of the `DnsTester::test` loop body. -/
def repeatSend (τ : Nat → Nat) : Nat → TestState → TestState
  | 0, st => st
  | n + 1, st => repeatSend τ n (sendStep τ st)

/-- One whole invocation of `DnsTester::test`: the `for` loop runs exactly
`num_burst_` times (dnstester.cpp line 135). -/
def testTick (cfg : Config) (τ : Nat → Nat) (st : TestState) : TestState :=
  repeatSend τ cfg.num_burst st

/-- The state after `k` timer ticks, starting from the constructor state. -/
def runTicks (cfg : Config) (τ : Nat → Nat) : Nat → TestState
  | 0 => initState cfg
  | k + 1 => testTick cfg τ (runTicks cfg τ k)

/-- The number of times the timer invokes `DnsTester::test`:
`(size_t) (num_req_ / num_burst_)` (dnstester.cpp line 159), i.e. floor
division. -/
def numTicks (cfg : Config) : Nat := cfg.num_req / cfg.num_burst

/-- Ceiling division, the tick count the spec asserts. -/
def specCeilDiv (n b : Nat) : Nat := (n + b - 1) / b

/-- A trivial timestamp oracle for concrete evaluations. -/
def tauZero : Nat → Nat := fun _ => 0

theorem updateRecord_length (f : DnsQuery → DnsQuery) :
    ∀ (i : Nat) (l : List DnsQuery), (updateRecord f i l).length = l.length := by
  intro i l
  induction l generalizing i with
  | nil => cases i <;> rfl
  | cons q qs ih => cases i with
    | zero => rfl
    | succ n => simpa [updateRecord] using ih n

theorem repeatSend_num_sent (τ : Nat → Nat) :
    ∀ (n : Nat) (st : TestState), (repeatSend τ n st).num_sent = st.num_sent + n := by
  intro n
  induction n with
  | zero => intro st; rfl
  | succ m ih =>
    intro st
    show (repeatSend τ m (sendStep τ st)).num_sent = st.num_sent + (m + 1)
    rw [ih]
    simp [sendStep]
    omega

theorem runTicks_num_sent (cfg : Config) (τ : Nat → Nat) :
    ∀ k : Nat, (runTicks cfg τ k).num_sent = k * cfg.num_burst := by
  intro k
  induction k with
  | zero => simp [runTicks, initState]
  | succ m ih =>
    show (testTick cfg τ (runTicks cfg τ m)).num_sent = (m + 1) * cfg.num_burst
    rw [testTick, repeatSend_num_sent, ih]
    ring

/-- A 192.0.2.0/24 configuration with 5 requests and burst size 2: the burst
size does not divide the request count. -/
def cfgFive : Config := ⟨3221225984, 24, 5, 2⟩

/-- A 192.0.2.0/24 configuration with 6 requests and burst size 2. -/
def cfgSix : Config := ⟨3221225984, 24, 6, 2⟩

/-- Claim C1, counterexample: with `num_requests = 5` and `burst_size = 2`
the timer is constructed with `num_req_ / num_burst_ = 2` ticks
(dnstester.cpp line 159), not `ceil(5/2) = 3`, and after all ticks only
`4` of the `5` queries have been sent, because `DnsTester::test` always
sends a full burst and there is no partial final burst. -/
theorem burst_floor_counterexample :
    numTicks cfgFive ≠ specCeilDiv cfgFive.num_req cfgFive.num_burst ∧
    (runTicks cfgFive tauZero (numTicks cfgFive)).num_sent ≠ cfgFive.num_req := by
  constructor
  · decide
  · show (runTicks cfgFive tauZero (numTicks cfgFive)).num_sent ≠ cfgFive.num_req
    rw [runTicks_num_sent]
    decide

/-- Claim C1, amended: when the burst size divides the request count (and is
positive), the periodic callback is invoked exactly
`ceil(num_requests/burst_size)` (= `num_requests/burst_size`) times, the
total number of queries sent across all ticks is exactly `num_requests`,
and the final tick sends exactly the remaining
`num_requests - num_sent = burst_size` queries.  (In general the code
schedules `floor(num_requests/burst_size)` full bursts and never a partial
one.) -/
theorem burst_divisible (cfg : Config) (τ : Nat → Nat)
    (hb : 0 < cfg.num_burst) (hd : cfg.num_burst ∣ cfg.num_req) :
    numTicks cfg = specCeilDiv cfg.num_req cfg.num_burst ∧
    (runTicks cfg τ (numTicks cfg)).num_sent = cfg.num_req ∧
    (∀ k, k + 1 = numTicks cfg →
      cfg.num_req - (runTicks cfg τ k).num_sent = cfg.num_burst ∧
      (runTicks cfg τ (k + 1)).num_sent - (runTicks cfg τ k).num_sent = cfg.num_burst) := by
  obtain ⟨c, hc⟩ := hd
  have hticks : numTicks cfg = c := by
    rw [numTicks, hc, Nat.mul_div_cancel_left _ hb]
  have hceil : specCeilDiv cfg.num_req cfg.num_burst = c := by
    rw [specCeilDiv]
    have h1 : cfg.num_req + cfg.num_burst - 1 = cfg.num_burst * c + (cfg.num_burst - 1) := by
      omega
    rw [h1, Nat.mul_add_div hb, Nat.div_eq_of_lt (by omega), Nat.add_zero]
  refine ⟨by rw [hticks, hceil], ?_, ?_⟩
  · rw [runTicks_num_sent, hticks, hc]; ring
  · intro k hk
    have h1 : (runTicks cfg τ k).num_sent = k * cfg.num_burst := runTicks_num_sent cfg τ k
    have h2 : (runTicks cfg τ (k + 1)).num_sent = (k + 1) * cfg.num_burst :=
      runTicks_num_sent cfg τ (k + 1)
    have h3 : cfg.num_req = k * cfg.num_burst + cfg.num_burst := by
      rw [hc, ← hticks, ← hk]; ring
    have h4 : (k + 1) * cfg.num_burst = k * cfg.num_burst + cfg.num_burst := by ring
    omega

/-- Witness for `burst_divisible` at the concrete 6-request, burst-2
configuration: 3 ticks, all 6 queries sent, and the last tick sends the
remaining 2 queries. -/
theorem burst_divisible_witness :
    numTicks cfgSix = specCeilDiv cfgSix.num_req cfgSix.num_burst ∧
    (runTicks cfgSix tauZero (numTicks cfgSix)).num_sent = cfgSix.num_req ∧
    cfgSix.num_req - (runTicks cfgSix tauZero 2).num_sent = cfgSix.num_burst :=
  ⟨(burst_divisible cfgSix tauZero (by decide) ⟨3, rfl⟩).1,
   (burst_divisible cfgSix tauZero (by decide) ⟨3, rfl⟩).2.1,
   ((burst_divisible cfgSix tauZero (by decide) ⟨3, rfl⟩).2.2 2 (by decide)).1⟩

theorem testBit_255 (i : Nat) : (255 : Nat).testBit i = decide (i < 8) := by
  have e : (255 : Nat) = 2 ^ 8 - 1 := by norm_num
  rw [e, Nat.testBit_two_pow_sub_one]

/-- Splitting a 32-bit address into the four label octets and reassembling
them from the parsed question is the identity. -/
theorem reconstruct_toOctets (ip : Nat) (h : ip < 2 ^ 32) :
    reconstructIp (toOctets ip) = ip := by
  apply Nat.eq_of_testBit_eq
  intro j
  simp only [reconstructIp, toOctets, Nat.testBit_lor, Nat.testBit_land,
    Nat.testBit_shiftLeft, Nat.testBit_shiftRight, testBit_255]
  rcases Nat.lt_or_ge j 8 with h1 | h1
  · simp [show ¬ 8 ≤ j by omega, show ¬ 16 ≤ j by omega, show ¬ 24 ≤ j by omega, h1]
  rcases Nat.lt_or_ge j 16 with h2 | h2
  · have e : 8 + (j - 8) = j := by omega
    simp [show ¬ 16 ≤ j by omega, show ¬ 24 ≤ j by omega, h1, e,
      show j - 8 < 8 by omega, show ¬ j < 8 by omega]
  rcases Nat.lt_or_ge j 24 with h3 | h3
  · have e : 16 + (j - 16) = j := by omega
    simp [show ¬ 24 ≤ j by omega, h1, h2, e,
      show j - 16 < 8 by omega, show ¬ j - 8 < 8 by omega, show ¬ j < 8 by omega]
  rcases Nat.lt_or_ge j 32 with h4 | h4
  · have e : 24 + (j - 24) = j := by omega
    simp [h1, h2, h3, e, show j - 24 < 8 by omega,
      show ¬ j - 16 < 8 by omega, show ¬ j - 8 < 8 by omega, show ¬ j < 8 by omega]
  · have hbit : ip.testBit j = false :=
      Nat.testBit_lt_two_pow (lt_of_lt_of_le h (Nat.pow_le_pow_right (by norm_num) h4))
    simp [hbit, show ¬ j - 24 < 8 by omega, show ¬ j - 16 < 8 by omega,
      show ¬ j - 8 < 8 by omega, show ¬ j < 8 by omega]

/-- A /24 configuration whose base address `0.0.0.1` has non-zero host-ID
bits. -/
def cfgHostBits : Config := ⟨1, 24, 2, 1⟩

/-- Claim C3, counterexample: with base address `0.0.0.1`, netmask `24` and
`num_requests = 2 ≤ 2^8`, query index `0` is encoded as address
`ip_ | 0 = 1` (dnstester.cpp line 141), and decoding that address by
masking to the host-ID bits (line 209) yields `1`, not `0`: the code never
masks the configured base address, so the round trip fails whenever the
base address has non-zero host-ID bits. -/
theorem addr_roundtrip_counterexample :
    cfgHostBits.num_req ≤ 2 ^ (32 - cfgHostBits.netmask) ∧
    0 < cfgHostBits.num_req ∧
    decodeIdx cfgHostBits (reconstructIp (toOctets (encodeAddr cfgHostBits 0))) ≠ 0 := by
  refine ⟨by decide, by decide, ?_⟩
  decide

/-- Claim C3, amended: provided the configured base address is a genuine
subnet base (its low `32 - netmask` host-ID bits are zero), then for every
`num_requests ≤ 2^(32-netmask)` and every index `i < num_requests`,
encoding `i` to its synthetic address `ip_ | i`, emitting it as four label
octets, reassembling the 32-bit address from the parsed octets and masking
it to the host-ID bits yields `i` again. -/
theorem addr_index_roundtrip (cfg : Config) (i : Nat)
    (hip : cfg.ip < 2 ^ 32) (hnm : cfg.netmask ≤ 32)
    (hbase : cfg.ip &&& hostMask cfg.netmask = 0)
    (hreq : cfg.num_req ≤ 2 ^ (32 - cfg.netmask)) (hi : i < cfg.num_req) :
    decodeIdx cfg (reconstructIp (toOctets (encodeAddr cfg i))) = i := by
  have hi2 : i < 2 ^ (32 - cfg.netmask) := lt_of_lt_of_le hi hreq
  have hle : (2 : Nat) ^ (32 - cfg.netmask) ≤ 2 ^ 32 :=
    Nat.pow_le_pow_right (by norm_num) (by omega)
  have hor : cfg.ip ||| i < 2 ^ 32 :=
    Nat.or_lt_two_pow hip (lt_of_lt_of_le hi2 hle)
  rw [encodeAddr, reconstruct_toOctets _ hor, decodeIdx, hostMask]
  apply Nat.eq_of_testBit_eq
  intro j
  simp only [Nat.testBit_land, Nat.testBit_lor, Nat.testBit_two_pow_sub_one]
  rcases Nat.lt_or_ge j (32 - cfg.netmask) with hj | hj
  · have hipbit : cfg.ip.testBit j = false := by
      have h0 := congrArg (fun x => x.testBit j) hbase
      simpa [hostMask, Nat.testBit_land, Nat.testBit_two_pow_sub_one, hj] using h0
    simp [hipbit, hj]
  · have hib : i.testBit j = false :=
      Nat.testBit_lt_two_pow
        (lt_of_lt_of_le hi2 (Nat.pow_le_pow_right (by norm_num) hj))
    simp [hib, show ¬ j < 32 - cfg.netmask by omega]

/-- Witness for `addr_index_roundtrip`: in the 192.0.2.0/24 configuration
with 6 requests, index 3 round-trips through its synthetic address. -/
theorem addr_index_roundtrip_witness :
    cfgSix.ip < 2 ^ 32 ∧ cfgSix.netmask ≤ 32 ∧
    cfgSix.ip &&& hostMask cfgSix.netmask = 0 ∧
    cfgSix.num_req ≤ 2 ^ (32 - cfgSix.netmask) ∧ 3 < cfgSix.num_req ∧
    decodeIdx cfgSix (reconstructIp (toOctets (encodeAddr cfgSix 3))) = 3 :=
  ⟨by decide, by decide, by decide, by decide, by decide,
   addr_index_roundtrip cfgSix 3 (by decide) (by decide) (by decide) (by decide) (by decide)⟩

/-- The `uint16_t` accumulation loop of `DnsTester::display` (dnstester.cpp
lines 229-241): the counter wraps modulo `2^16` at every increment. -/
def count16 (p : DnsQuery → Bool) (l : List DnsQuery) : Nat :=
  l.foldl (fun acc q => if p q then (acc + 1) % 65536 else acc) 0

/-- The value of the `num_received` counter after the counting loop. -/
def numReceived16 (l : List DnsQuery) : Nat := count16 (fun q => q.received) l

/-- The value of the `num_answered` counter after the counting loop. -/
def numAnswered16 (l : List DnsQuery) : Nat := count16 (fun q => q.answered) l

/-- The true number of records with `received_ == true`. -/
def countReceived (l : List DnsQuery) : Nat := l.countP (fun q => q.received)

/-- The true number of records with `answered_ == true`. -/
def countAnswered (l : List DnsQuery) : Nat := l.countP (fun q => q.answered)

/-- Division over `ℚ`, made partial so that a division by zero (which in
the C++ `double` arithmetic yields NaN or infinity, never `0`) is
explicit. -/
def qdivChecked (a b : ℚ) : Option ℚ := if b = 0 then none else some (a / b)

/-- One step of the averaging loop (dnstester.cpp lines 243-248):
`average += (double) query.rtt_.count() / num_received` for received
records; `d` is the already-computed `num_received` divisor. -/
def avgFoldStep (d : ℚ) (acc : Option ℚ) (q : DnsQuery) : Option ℚ :=
  match acc with
  | none => none
  | some a =>
    if q.received then (qdivChecked (q.rtt : ℚ) d).map (fun x => a + x) else some a

/-- The `average` variable after the averaging loop of
`DnsTester::display`, `none` marking that some step divided by zero. -/
def averageComp (l : List DnsQuery) : Option ℚ :=
  l.foldl (avgFoldStep ((numReceived16 l : ℚ))) (some 0)

/-- The sum `Σ (rtt - average)^2` over received records (dnstester.cpp
lines 250-255). -/
def sqDevSum (l : List DnsQuery) (avg : ℚ) : ℚ :=
  l.foldl (fun s q => if q.received then s + ((q.rtt : ℚ) - avg) ^ 2 else s) 0

/-- The radicand `standard_deviation / num_received` passed to `sqrt` at
dnstester.cpp line 256.  The displayed standard deviation is its square
root, so it is `0` exactly when this value is `some 0`; `none` means the
division `0/0` happened and `sqrt` received (and returned) NaN. -/
def stddevSq (l : List DnsQuery) : Option ℚ :=
  match averageComp l with
  | none => none
  | some avg => qdivChecked (sqDevSum l avg) ((numReceived16 l : ℚ))

/-- The received percentage printed at dnstester.cpp line 259:
`((double) num_received / tests_.size()) * 100`. -/
def displayedReceivedPct (l : List DnsQuery) : Option ℚ :=
  (qdivChecked ((numReceived16 l : ℚ)) ((l.length : ℚ))).map (fun x => x * 100)

/-- The valid-answer percentage printed at dnstester.cpp line 260:
`(double) num_answered / tests_.size()` — note the missing `* 100`. -/
def displayedAnsweredPct (l : List DnsQuery) : Option ℚ :=
  qdivChecked ((numAnswered16 l : ℚ)) ((l.length : ℚ))

theorem count16_foldl (p : DnsQuery → Bool) :
    ∀ (l : List DnsQuery) (a : Nat), a < 65536 →
      l.foldl (fun acc q => if p q then (acc + 1) % 65536 else acc) a
        = (a + l.countP p) % 65536 := by
  intro l
  induction l with
  | nil => intro a ha; simp [Nat.mod_eq_of_lt ha]
  | cons q qs ih =>
    intro a ha
    by_cases hq : p q = true
    · simp only [List.foldl_cons, List.countP_cons, if_pos hq]
      rw [ih ((a + 1) % 65536) (Nat.mod_lt _ (by norm_num))]
      omega
    · simp only [List.foldl_cons, List.countP_cons, if_neg hq]
      rw [ih a ha]
      omega

theorem numReceived16_eq (l : List DnsQuery) :
    numReceived16 l = countReceived l % 65536 := by
  rw [numReceived16, count16, count16_foldl _ l 0 (by norm_num), countReceived, Nat.zero_add]

theorem numAnswered16_eq (l : List DnsQuery) :
    numAnswered16 l = countAnswered l % 65536 := by
  rw [numAnswered16, count16, count16_foldl _ l 0 (by norm_num), countAnswered, Nat.zero_add]

theorem avgFold_all_unreceived (d : ℚ) :
    ∀ (l : List DnsQuery) (a : ℚ), (∀ q ∈ l, q.received = false) →
      l.foldl (avgFoldStep d) (some a) = some a := by
  intro l
  induction l with
  | nil => intro a _; rfl
  | cons q qs ih =>
    intro a h
    have hq : q.received = false := h q (by simp)
    simp only [List.foldl_cons, avgFoldStep, hq, if_false]
    exact ih a (fun r hr => h r (by simp [hr]))

theorem sqDevSum_all_unreceived (avg : ℚ) :
    ∀ (l : List DnsQuery) (s : ℚ), (∀ q ∈ l, q.received = false) →
      l.foldl (fun s q => if q.received then s + ((q.rtt : ℚ) - avg) ^ 2 else s) s = s := by
  intro l
  induction l with
  | nil => intro s _; rfl
  | cons q qs ih =>
    intro s h
    have hq : q.received = false := h q (by simp)
    simp only [List.foldl_cons, hq, if_false]
    exact ih s (fun r hr => h r (by simp [hr]))

/-- A record array in which nothing was received. -/
def lNone : List DnsQuery := [DnsQuery.initial]

/-- Claim C2, counterexample: with an empty set of received records the
mean is reported as `0`, but the standard-deviation computation at
dnstester.cpp line 256 divides the zero sum by `num_received = 0`
(`sqrt(0.0/0)` = NaN in the `double` arithmetic), so the run does divide
by zero and the displayed standard deviation is NaN, not `0`. -/
theorem zero_received_stddev_counterexample :
    (lNone.all (fun q => !q.received)) = true ∧ stddevSq lNone = none := by
  refine ⟨by decide, ?_⟩
  have havg : averageComp lNone = some 0 := by
    simp [averageComp, lNone, avgFoldStep, DnsQuery.initial]
  have h16 : numReceived16 lNone = 0 := by decide
  simp [stddevSq, havg, h16, qdivChecked]

/-- Claim C2, amended: when no record has `received = true`, the averaging
loop never runs, so the mean is reported as `0` without any division; but
the standard-deviation computation divides by the zero `num_received`
counter (yielding NaN through `sqrt`), rather than reporting `0`. -/
theorem zero_received_stats (l : List DnsQuery)
    (h : ∀ q ∈ l, q.received = false) :
    averageComp l = some 0 ∧ stddevSq l = none := by
  have h0 : countReceived l = 0 := by
    rw [countReceived, List.countP_eq_zero]
    intro q hq
    simp [h q hq]
  have h16 : numReceived16 l = 0 := by rw [numReceived16_eq, h0]
  have havg : averageComp l = some 0 := by
    rw [averageComp]
    exact avgFold_all_unreceived _ l 0 h
  refine ⟨havg, ?_⟩
  have hsum : sqDevSum l 0 = 0 := sqDevSum_all_unreceived 0 l 0 h
  simp [stddevSq, havg, h16, qdivChecked]

/-- Witness for `zero_received_stats` on a concrete one-record array with
nothing received. -/
theorem zero_received_stats_witness :
    (∀ q ∈ lNone, q.received = false) ∧
    (averageComp lNone = some 0 ∧ stddevSq lNone = none) :=
  ⟨by decide, zero_received_stats lNone (by decide)⟩

/-- The scenario array of the spec: 4 queries, indices 0 and 2 received and
answered with RTTs 10 ms and 20 ms, indices 1 and 3 unanswered. -/
def lFour : List DnsQuery :=
  [⟨0, true, true, 10000000⟩, ⟨0, false, false, 0⟩,
   ⟨0, true, true, 20000000⟩, ⟨0, false, false, 0⟩]

/-- Claim C9: at dnstester.cpp line 260 the valid-answer figure is printed
as `(double) num_answered / tests_.size()` with no `* 100`, unlike the
received figure one line above.  With 2 of 4 answered the code therefore
prints `0.50` (labelled `%`), not the `50` that
`100 * answered_count / num_requests` (and the spec scenario) demands. -/
theorem answered_pct_missing_hundred :
    displayedAnsweredPct lFour = some (1 / 2) ∧
    displayedReceivedPct lFour = some 50 ∧
    (1 / 2 : ℚ) ≠ 100 * 2 / 4 := by
  have ha : numAnswered16 lFour = 2 := by decide
  have hr : numReceived16 lFour = 2 := by decide
  have hl : lFour.length = 4 := by decide
  refine ⟨?_, ?_, by norm_num⟩
  · rw [displayedAnsweredPct, ha, hl]
    rw [qdivChecked, if_neg (by norm_num)]
    norm_num
  · rw [displayedReceivedPct, hr, hl]
    rw [qdivChecked, if_neg (by norm_num)]
    norm_num

/-- Claim C10: the displayed received/answered counts are accumulated in
`uint16_t` variables (dnstester.cpp line 229), so they equal the true
counts modulo `2^16`, and once the true count exceeds `65535` the display
wraps and no longer matches it. -/
theorem display_counts_wrap (l : List DnsQuery) :
    numReceived16 l = countReceived l % 65536 ∧
    numAnswered16 l = countAnswered l % 65536 ∧
    (65535 < countReceived l → numReceived16 l ≠ countReceived l) ∧
    (65535 < countAnswered l → numAnswered16 l ≠ countAnswered l) := by
  have h1 := numReceived16_eq l
  have h2 := numAnswered16_eq l
  refine ⟨h1, h2, ?_, ?_⟩ <;> intro h <;> omega

/-- A received-and-answered record. -/
def qFull : DnsQuery := ⟨0, true, true, 5⟩

/-- 65536 received-and-answered records: enough to wrap the counters. -/
def lBig : List DnsQuery := List.replicate 65536 qFull

theorem countReceived_lBig : countReceived lBig = 65536 := by
  rw [countReceived, lBig, List.countP_replicate]
  simp [qFull]

theorem countAnswered_lBig : countAnswered lBig = 65536 := by
  rw [countAnswered, lBig, List.countP_replicate]
  simp [qFull]

/-- Witness for `display_counts_wrap`: with 65536 received and answered
records the displayed counts differ from the true counts. -/
theorem display_counts_wrap_witness :
    numReceived16 lBig ≠ countReceived lBig ∧
    numAnswered16 lBig ≠ countAnswered lBig :=
  ⟨(display_counts_wrap lBig).2.2.1 (by rw [countReceived_lBig]; omega),
   (display_counts_wrap lBig).2.2.2 (by rw [countAnswered_lBig]; omega)⟩

/-- The fatal receive-loop failures thrown as `TestException`
(dnstester.cpp lines 187, 193, 202, 206). -/
inductive TestError where
  | unexpectedSender
  | invalidAnswer
  | invalidQuestion
  | indexOutOfRange
  deriving DecidableEq

/-- The data of one received datagram that the receive-loop body inspects:
sender identity, the parsed header fields, the result of `sscanf` on the
question's first label (`none` when it does not parse into 4 octets), and
the arrival timestamp. -/
structure Answer where
  senderAddr : Nat
  senderPort : Nat
  qdcount : Nat
  qr : Nat
  rcode : Nat
  ancount : Nat
  octets : Option Octets
  timeReceived : Nat
  deriving DecidableEq

/-- The correlator's update of the matched record (dnstester.cpp lines
211-216): `received_ = true`, `rtt_ = time_received - time_sent_`,
`answered_ = (qr == 1 && rcode == NoError && ancount > 0)`. -/
def correlate (a : Answer) (q : DnsQuery) : DnsQuery :=
  { q with received := true
           rtt := (a.timeReceived : Int) - (q.time_sent : Int)
           answered := a.qr == 1 && a.rcode == 0 && decide (0 < a.ancount) }

/-- One pass of the receive-loop body over a datagram that was read
(dnstester.cpp lines 178-216): sender validation, `qdcount` check,
question parsing, range check on the decoded index, then the record
update.  The masks at lines 205 and 209 coincide (`hostMask`) for every
netmask in `1..32`.  An error models the thrown `TestException`, which
aborts the run with the record array unchanged. -/
def processAnswer (cfg : Config) (srvAddr srvPort : Nat) (a : Answer)
    (st : TestState) : Except TestError TestState :=
  if a.senderAddr ≠ srvAddr ∨ a.senderPort ≠ srvPort then
    .error .unexpectedSender
  else if a.qdcount < 1 then
    .error .invalidAnswer
  else
    match a.octets with
    | none => .error .invalidQuestion
    | some o =>
      if cfg.num_req ≤ decodeIdx cfg (reconstructIp o) then
        .error .indexOutOfRange
      else
        .ok ⟨st.num_sent,
             updateRecord (correlate a) (decodeIdx cfg (reconstructIp o)) st.tests⟩

theorem getQ_updateRecord_self (f : DnsQuery → DnsQuery) :
    ∀ (l : List DnsQuery) (i : Nat), i < l.length →
      getQ (updateRecord f i l) i = f (getQ l i) := by
  intro l
  induction l with
  | nil => intro i h; simp at h
  | cons q qs ih =>
    intro i h
    cases i with
    | zero => rfl
    | succ n =>
      show getQ (q :: updateRecord f n qs) (n + 1) = f (getQ (q :: qs) (n + 1))
      simp only [getQ, List.getD_cons_succ]
      exact ih n (by simpa using Nat.lt_of_succ_lt_succ h)

theorem getQ_updateRecord_ne (f : DnsQuery → DnsQuery) :
    ∀ (l : List DnsQuery) (i j : Nat), j ≠ i →
      getQ (updateRecord f i l) j = getQ l j := by
  intro l
  induction l with
  | nil => intro i j _; cases i <;> rfl
  | cons q qs ih =>
    intro i j hj
    cases i with
    | zero =>
      cases j with
      | zero => exact absurd rfl hj
      | succ n => rfl
    | succ m =>
      cases j with
      | zero => rfl
      | succ n =>
        show getQ (q :: updateRecord f m qs) (n + 1) = getQ (q :: qs) (n + 1)
        simp only [getQ, List.getD_cons_succ]
        exact ih m n (fun hc => hj (by rw [hc]))

/-- Claim C4: an answer that passes the sender, QDCOUNT, question-parse and
index-range checks updates exactly the record at the decoded index —
`received` becomes `true`, `rtt` becomes `arrival - time_sent` of that
record, `answered` becomes `(QR == 1) && (RCODE == NoError) && (ANCOUNT > 0)`
— and every other record is untouched. -/
theorem correlator_update (cfg : Config) (srvAddr srvPort : Nat) (a : Answer)
    (st : TestState) (o : Octets)
    (hs : a.senderAddr = srvAddr) (hp : a.senderPort = srvPort)
    (hq : 1 ≤ a.qdcount) (ho : a.octets = some o)
    (hidx : decodeIdx cfg (reconstructIp o) < cfg.num_req)
    (hlen : st.tests.length = cfg.num_req) :
    processAnswer cfg srvAddr srvPort a st =
      .ok ⟨st.num_sent,
           updateRecord (correlate a) (decodeIdx cfg (reconstructIp o)) st.tests⟩ ∧
    getQ (updateRecord (correlate a) (decodeIdx cfg (reconstructIp o)) st.tests)
        (decodeIdx cfg (reconstructIp o)) =
      { getQ st.tests (decodeIdx cfg (reconstructIp o)) with
          received := true
          rtt := (a.timeReceived : Int) -
            ((getQ st.tests (decodeIdx cfg (reconstructIp o))).time_sent : Int)
          answered := a.qr == 1 && a.rcode == 0 && decide (0 < a.ancount) } ∧
    (∀ j, j ≠ decodeIdx cfg (reconstructIp o) →
      getQ (updateRecord (correlate a) (decodeIdx cfg (reconstructIp o)) st.tests) j =
        getQ st.tests j) := by
  refine ⟨?_, ?_, ?_⟩
  · simp only [processAnswer, ho]
    rw [if_neg (show ¬(a.senderAddr ≠ srvAddr ∨ a.senderPort ≠ srvPort) by simp [hs, hp]),
      if_neg (show ¬a.qdcount < 1 by omega),
      if_neg (show ¬cfg.num_req ≤ decodeIdx cfg (reconstructIp o) by omega)]
  · rw [getQ_updateRecord_self _ st.tests _ (by omega)]
    rfl
  · intro j hj
    exact getQ_updateRecord_ne _ st.tests _ j hj

/-- The label octets `192.0.2.2`, decoding to index 2 under /24. -/
def oSix : Octets := ⟨192, 0, 2, 2⟩

/-- A well-formed answer from the DUT at address 7, port 53: one question,
`QR = 1`, `RCODE = NoError`, one answer record, question label `192.0.2.2`. -/
def aSix : Answer := ⟨7, 53, 1, 1, 0, 1, some oSix, 100⟩

/-- Witness for `correlator_update`: in the 192.0.2.0/24, 6-request
configuration, the answer for `192.0.2.2` updates record 2 as claimed. -/
theorem correlator_update_witness :
    getQ (updateRecord (correlate aSix) (decodeIdx cfgSix (reconstructIp oSix))
        (initState cfgSix).tests) (decodeIdx cfgSix (reconstructIp oSix)) =
      { getQ (initState cfgSix).tests (decodeIdx cfgSix (reconstructIp oSix)) with
          received := true
          rtt := (aSix.timeReceived : Int) -
            (((getQ (initState cfgSix).tests
                (decodeIdx cfgSix (reconstructIp oSix))).time_sent : Int))
          answered := aSix.qr == 1 && aSix.rcode == 0 && decide (0 < aSix.ancount) } :=
  (correlator_update cfgSix 7 53 aSix (initState cfgSix) oSix rfl rfl (by decide) rfl
    (by decide) (by decide)).2.1

/-- Claim C6: a datagram whose sender address or port differs from the
configured DUT makes the receive loop throw the unexpected-sender
`TestException` (dnstester.cpp lines 182-188) before any further parsing,
with the record array unchanged (the error return carries no state); and
when both match exactly, that error is never raised. -/
theorem sender_validation (cfg : Config) (srvAddr srvPort : Nat) (a : Answer)
    (st : TestState) :
    (a.senderAddr ≠ srvAddr ∨ a.senderPort ≠ srvPort →
      processAnswer cfg srvAddr srvPort a st = .error .unexpectedSender) ∧
    (a.senderAddr = srvAddr → a.senderPort = srvPort →
      processAnswer cfg srvAddr srvPort a st ≠ .error .unexpectedSender) := by
  constructor
  · intro h
    rw [processAnswer, if_pos h]
  · intro h1 h2
    rw [processAnswer, if_neg (by simp [h1, h2])]
    by_cases hq : a.qdcount < 1
    · rw [if_pos hq]; simp
    · rw [if_neg hq]
      cases ho : a.octets with
      | none => simp
      | some o =>
        by_cases hr : cfg.num_req ≤ decodeIdx cfg (reconstructIp o) <;> simp [hr]

/-- An answer from the wrong host (address 9 instead of 7). -/
def aBad : Answer := ⟨9, 53, 1, 1, 0, 1, some oSix, 100⟩

/-- Witness for `sender_validation`: the answer from address 9 aborts with
the unexpected-sender error, the matching one does not. -/
theorem sender_validation_witness :
    processAnswer cfgSix 7 53 aBad (initState cfgSix) = .error .unexpectedSender ∧
    processAnswer cfgSix 7 53 aSix (initState cfgSix) ≠ .error .unexpectedSender :=
  ⟨(sender_validation cfgSix 7 53 aBad (initState cfgSix)).1 (by decide),
   (sender_validation cfgSix 7 53 aSix (initState cfgSix)).2 rfl rfl⟩

/-- Claim C7: for an answer that passes the sender and QDCOUNT checks and
whose first label parses into octets `o`, the receive loop throws the
index-out-of-range `TestException` (dnstester.cpp lines 205-207) if and
only if the reconstructed address masked to the host-ID bits is
`≥ num_requests`, and in that case no record is modified (no `ok` state is
produced). -/
theorem index_range_guard (cfg : Config) (srvAddr srvPort : Nat) (a : Answer)
    (st : TestState) (o : Octets)
    (hs : a.senderAddr = srvAddr) (hp : a.senderPort = srvPort)
    (hq : 1 ≤ a.qdcount) (ho : a.octets = some o) :
    (processAnswer cfg srvAddr srvPort a st = .error .indexOutOfRange ↔
      cfg.num_req ≤ decodeIdx cfg (reconstructIp o)) ∧
    (cfg.num_req ≤ decodeIdx cfg (reconstructIp o) →
      ∀ st2, processAnswer cfg srvAddr srvPort a st ≠ .ok st2) := by
  have hred : processAnswer cfg srvAddr srvPort a st =
      if cfg.num_req ≤ decodeIdx cfg (reconstructIp o) then
        .error .indexOutOfRange
      else
        .ok ⟨st.num_sent,
             updateRecord (correlate a) (decodeIdx cfg (reconstructIp o)) st.tests⟩ := by
    simp only [processAnswer, ho]
    rw [if_neg (show ¬(a.senderAddr ≠ srvAddr ∨ a.senderPort ≠ srvPort) by simp [hs, hp]),
      if_neg (show ¬a.qdcount < 1 by omega)]
  constructor
  · rw [hred]
    by_cases hr : cfg.num_req ≤ decodeIdx cfg (reconstructIp o)
    · rw [if_pos hr]; simp [hr]
    · rw [if_neg hr]; simp [hr]
  · intro hr st2
    rw [hred, if_pos hr]
    simp

/-- The label octets `192.0.2.200`, decoding to index 200. -/
def oOor : Octets := ⟨192, 0, 2, 200⟩

/-- An otherwise well-formed answer whose embedded address decodes to
index 200, beyond the 6 configured requests. -/
def aOor : Answer := ⟨7, 53, 1, 1, 0, 1, some oOor, 100⟩

/-- Witness for `index_range_guard`: the answer for `192.0.2.200` decodes
to index 200 ≥ 6 and aborts with the index-out-of-range error. -/
theorem index_range_guard_witness :
    cfgSix.num_req ≤ decodeIdx cfgSix (reconstructIp oOor) ∧
    processAnswer cfgSix 7 53 aOor (initState cfgSix) = .error .indexOutOfRange :=
  ⟨by decide,
   (index_range_guard cfgSix 7 53 aOor (initState cfgSix) oOor rfl rfl (by decide)
     rfl).1.mpr (by decide)⟩

theorem all_updateRecord (p : DnsQuery → Bool) (f : DnsQuery → DnsQuery)
    (hf : ∀ q, p q = true → p (f q) = true) :
    ∀ (i : Nat) (l : List DnsQuery), l.all p = true → (updateRecord f i l).all p = true := by
  intro i l
  induction l generalizing i with
  | nil => intro h; cases i <;> exact h
  | cons q qs ih =>
    intro h
    rw [List.all_cons, Bool.and_eq_true] at h
    cases i with
    | zero =>
      rw [updateRecord, List.all_cons, Bool.and_eq_true]
      exact ⟨hf q h.1, h.2⟩
    | succ n =>
      rw [updateRecord, List.all_cons, Bool.and_eq_true]
      exact ⟨h.1, ih n h.2⟩

theorem all_repeatSend (p : DnsQuery → Bool) (τ : Nat → Nat)
    (hp : ∀ (q : DnsQuery) (t : Nat), p q = true → p { q with time_sent := t } = true) :
    ∀ (n : Nat) (st : TestState), st.tests.all p = true →
      (repeatSend τ n st).tests.all p = true := by
  intro n
  induction n with
  | zero => intro st h; exact h
  | succ m ih =>
    intro st h
    show (repeatSend τ m (sendStep τ st)).tests.all p = true
    apply ih
    exact all_updateRecord p _ (fun q hq => hp q _ hq) st.num_sent st.tests h

theorem all_replicate_of (p : DnsQuery → Bool) (q : DnsQuery) (hq : p q = true) :
    ∀ n : Nat, (List.replicate n q).all p = true := by
  intro n
  rw [List.all_eq_true]
  intro x hx
  rw [List.eq_of_mem_replicate hx]
  exact hq

theorem all_processAnswer (p : DnsQuery → Bool) (cfg : Config)
    (srvAddr srvPort : Nat) (a : Answer)
    (hc : ∀ q, p q = true → p (correlate a q) = true) :
    ∀ (st st2 : TestState), st.tests.all p = true →
      processAnswer cfg srvAddr srvPort a st = .ok st2 → st2.tests.all p = true := by
  intro st st2 h hok
  rw [processAnswer] at hok
  by_cases h1 : a.senderAddr ≠ srvAddr ∨ a.senderPort ≠ srvPort
  · rw [if_pos h1] at hok; cases hok
  · rw [if_neg h1] at hok
    by_cases h2 : a.qdcount < 1
    · rw [if_pos h2] at hok; cases hok
    · rw [if_neg h2] at hok
      cases ho : a.octets with
      | none => rw [ho] at hok; cases hok
      | some o =>
        rw [ho] at hok
        by_cases h3 : cfg.num_req ≤ decodeIdx cfg (reconstructIp o)
        · simp only [if_pos h3] at hok; cases hok
        · simp only [if_neg h3] at hok
          have hst : st2 = ⟨st.num_sent,
              updateRecord (correlate a) (decodeIdx cfg (reconstructIp o)) st.tests⟩ := by
            cases hok; rfl
          rw [hst]
          exact all_updateRecord p _ hc _ st.tests h

/-- The per-record invariant of claim C5: `answered` implies `received`. -/
def recOk (q : DnsQuery) : Bool := !q.answered || q.received

/-- Claim C5: every record of the freshly constructed array satisfies
`answered → received`, and both operations that touch records — a burst
tick of `DnsTester::test` and a successful correlator update — preserve
that implication for every record. -/
theorem answered_implies_received (cfg : Config) (τ : Nat → Nat)
    (srvAddr srvPort : Nat) (a : Answer) :
    (initState cfg).tests.all recOk = true ∧
    (∀ st : TestState, st.tests.all recOk = true →
      (testTick cfg τ st).tests.all recOk = true) ∧
    (∀ st st2 : TestState, st.tests.all recOk = true →
      processAnswer cfg srvAddr srvPort a st = .ok st2 →
      st2.tests.all recOk = true) := by
  refine ⟨?_, ?_, ?_⟩
  · exact all_replicate_of recOk DnsQuery.initial rfl cfg.num_req
  · intro st h
    exact all_repeatSend recOk τ (fun q t hq => hq) cfg.num_burst st h
  · intro st st2 h hok
    exact all_processAnswer recOk cfg srvAddr srvPort a
      (fun q _ => by simp [recOk, correlate]) st st2 h hok

/-- Witness for `answered_implies_received`: the invariant still holds on
the concrete state produced by correlating the answer `aSix` after one
burst tick of the 6-request configuration. -/
theorem answered_implies_received_witness :
    (updateRecord (correlate aSix) 2 (testTick cfgSix tauZero (initState cfgSix)).tests).all
      recOk = true :=
  (answered_implies_received cfgSix tauZero 7 53 aSix).2.2
    (testTick cfgSix tauZero (initState cfgSix))
    ⟨(testTick cfgSix tauZero (initState cfgSix)).num_sent,
     updateRecord (correlate aSix) 2 (testTick cfgSix tauZero (initState cfgSix)).tests⟩
    ((answered_implies_received cfgSix tauZero 7 53 aSix).2.1 (initState cfgSix)
      ((answered_implies_received cfgSix tauZero 7 53 aSix).1))
    (by rfl)

/-- The per-record invariant of claim C8: a record not yet received still
carries RTT `0`. -/
def rttOk (q : DnsQuery) : Bool := q.received || (q.rtt == 0)

/-- One serialized row of the per-query report
(`query;tsent [ns];received;answered;rtt [ns]`, dnstester.cpp line 295);
`addr` is the synthetic address `ip_ | n` of line 292 the domain name is
formatted from. -/
structure ReportRow where
  addr : Nat
  tsent : Nat
  received : Bool
  answered : Bool
  rtt : Int
  deriving DecidableEq

/-- The row-writing loop of `DnsTester::write` (dnstester.cpp lines
290-296), carrying the running counter `n`. -/
def writeRowsAux (cfg : Config) : Nat → List DnsQuery → List ReportRow
  | _, [] => []
  | n, q :: qs =>
    ⟨cfg.ip ||| n, q.time_sent, q.received, q.answered, q.rtt⟩ ::
      writeRowsAux cfg (n + 1) qs

/-- The serialized per-query report of `DnsTester::write`. -/
def writeRows (cfg : Config) (l : List DnsQuery) : List ReportRow :=
  writeRowsAux cfg 0 l

theorem writeRowsAux_rtt_zero (cfg : Config) :
    ∀ (l : List DnsQuery) (n : Nat), l.all rttOk = true →
      ∀ r ∈ writeRowsAux cfg n l, r.received = false → r.rtt = 0 := by
  intro l
  induction l with
  | nil => intro n _ r hr; cases hr
  | cons q qs ih =>
    intro n h r hr hrec
    rw [List.all_cons, Bool.and_eq_true] at h
    rw [writeRowsAux, List.mem_cons] at hr
    cases hr with
    | inl he =>
      have hq : q.received = false := by rw [he] at hrec; exact hrec
      have := h.1
      rw [rttOk, hq, Bool.false_or] at this
      rw [he]
      simpa using this
    | inr hm => exact ih (n + 1) h.2 r hm hrec

/-- Claim C8: the freshly constructed records carry RTT `0`; a burst tick
and a successful correlator update both preserve the invariant that a
record with `received = false` has RTT `0`; and consequently every
serialized report row of such an array whose received flag is `false`
carries RTT value `0` nanoseconds. -/
theorem unreceived_row_rtt_zero (cfg : Config) (τ : Nat → Nat)
    (srvAddr srvPort : Nat) (a : Answer) :
    (initState cfg).tests.all rttOk = true ∧
    (∀ st : TestState, st.tests.all rttOk = true →
      (testTick cfg τ st).tests.all rttOk = true) ∧
    (∀ st st2 : TestState, st.tests.all rttOk = true →
      processAnswer cfg srvAddr srvPort a st = .ok st2 →
      st2.tests.all rttOk = true) ∧
    (∀ l : List DnsQuery, l.all rttOk = true →
      ∀ r ∈ writeRows cfg l, r.received = false → r.rtt = 0) := by
  refine ⟨?_, ?_, ?_, ?_⟩
  · exact all_replicate_of rttOk DnsQuery.initial rfl cfg.num_req
  · intro st h
    exact all_repeatSend rttOk τ (fun q t hq => hq) cfg.num_burst st h
  · intro st st2 h hok
    exact all_processAnswer rttOk cfg srvAddr srvPort a
      (fun q _ => by simp [rttOk, correlate]) st st2 h hok
  · intro l h r hr hrec
    exact writeRowsAux_rtt_zero cfg l 0 h r hr hrec

/-- The report row of the single never-received record of `lNone` under the
6-request configuration. -/
def rowSix : ReportRow := ⟨3221225984, 0, false, false, 0⟩

/-- Witness for `unreceived_row_rtt_zero`: the row serialized for the
never-received record carries RTT `0`. -/
theorem unreceived_row_rtt_zero_witness : rowSix.rtt = 0 :=
  (unreceived_row_rtt_zero cfgSix tauZero 7 53 aSix).2.2.2 lNone (by decide)
    rowSix (by decide) (by decide)

end DnsTester
